import Mathlib

/-!
Shallow embedding of the django-workflow engine (workflow/models.py):
the Workflow / State / Transition graph definition, the WorkflowActivity
state machine (start / progress / add_comment / force_stop) and the
append-only WorkflowHistory log.

Modelling conventions:
* Database rows are Lean structures; Django model instances compare by
  primary key, so State equality in the operations is tested on the id
  field exactly as the ORM does.
* Timestamps are abstract integers; datetime.datetime.today() becomes an
  explicit parameter, so State.deadline takes the current time.
* The history of an activity is a list ordered newest first, mirroring
  the WorkflowHistory Meta ordering [-created_on]; current_state()
  returns the head of that list.
* Methods that can raise return Except WorkflowException; the global
  State/Transition tables queried through the ORM are a DB record passed
  to the operations that need them.
-/

namespace Dwf

/-- Abstract timestamp (seconds). -/
abbrev Time := Int

/-- A row of the State table: a node of the workflow graph. -/
structure State where
  id : Nat
  name : String
  workflow : Nat
  is_start_state : Bool
  is_end_state : Bool
  estimation_value : Int
  estimation_unit : Int
  deriving Repr, DecidableEq

/-- State.deadline(): today + estimation_value * estimation_unit seconds when
the estimation value is positive, otherwise None. -/
def State.deadline (s : State) (now : Time) : Option Time :=
  if s.estimation_value > 0 then
    some (now + s.estimation_value * s.estimation_unit)
  else
    none

/-- A row of the Transition table: an edge of the workflow graph. -/
structure Transition where
  id : Nat
  name : String
  workflow : Nat
  from_state : State
  to_state : State
  deriving Repr, DecidableEq

/-- Workflow.DEFINITION -/
def Workflow.DEFINITION : Nat := 0

/-- Workflow.ACTIVE -/
def Workflow.ACTIVE : Nat := 1

/-- Workflow.RETIRED -/
def Workflow.RETIRED : Nat := 2

/-- A row of the Workflow table. -/
structure Workflow where
  id : Nat
  name : String
  status : Nat
  deriving Repr, DecidableEq

/-- The global State and Transition tables the ORM queries range over. -/
structure DB where
  states : List State
  transitions : List Transition
  deriving Repr, DecidableEq

/-- self.states: states whose workflow foreign key is this workflow. -/
def Workflow.states (db : DB) (wf : Workflow) : List State :=
  db.states.filter (fun s => s.workflow == wf.id)

/-- state.transitions_into: transitions whose to_state is this state. -/
def transitions_into (db : DB) (s : State) : List Transition :=
  db.transitions.filter (fun t => t.to_state.id == s.id)

/-- state.transitions_from: transitions whose from_state is this state. -/
def transitions_from (db : DB) (s : State) : List Transition :=
  db.transitions.filter (fun t => t.from_state.id == s.id)

/-- The errors dictionary built by Workflow.is_valid. -/
structure WorkflowErrors where
  workflow : List String
  states : List (Nat × List String)
  transitions : List (Nat × List String)
  deriving Repr, DecidableEq

/-- The per-state error messages collected by Workflow.is_valid for one state:
an orphan message when it has no incoming transition and is not the start
state, and a dead-end message when it has no outgoing transition and is not an
end state. -/
def stateErrors (db : DB) (s : State) : List String :=
  (if (transitions_into db s).length == 0 && !s.is_start_state then
    ["This state is orphaned. There is no way to get to it given the current workflow topology."]
  else []) ++
  (if (transitions_from db s).length == 0 && !s.is_end_state then
    ["This state is a dead end. It is not marked as an end state and there is no way to exit from it."]
  else [])

/-- Workflow.is_valid(): checks there is exactly one start state, at least one
end state, and no orphan or dead-end states; returns the boolean verdict
together with the errors dictionary (valid is set to False exactly when an
error message is recorded, so it equals emptiness of the collected errors). -/
def Workflow.is_valid (db : DB) (wf : Workflow) : Bool × WorkflowErrors :=
  let workflowErrs : List String :=
    (if ((wf.states db).filter (fun s => s.is_start_state)).length != 1 then
      ["There must be only one start state"]
    else []) ++
    (if ((wf.states db).filter (fun s => s.is_end_state)).length < 1 then
      ["There must be at least one end state"]
    else [])
  let statesErrs : List (Nat × List String) :=
    (wf.states db).foldl
      (fun acc s =>
        let msgs := stateErrors db s
        if msgs.isEmpty then acc else acc ++ [(s.id, msgs)])
      []
  (workflowErrs.isEmpty && statesErrs.isEmpty,
   { workflow := workflowErrs, states := statesErrs, transitions := [] })

/-- The exceptions raised by the workflow engine (workflow/exceptions.py). -/
inductive WorkflowException where
  | UnableToActivateWorkflow (msg : String)
  | UnableToStartWorkflow (msg : String)
  | UnableToProgressWorkflow (msg : String)
  | UnableToAddCommentToWorkflow (msg : String)
  deriving Repr, DecidableEq

/-- Workflow.activate(): only workflows in DEFINITION status whose graph
validates may move to ACTIVE. -/
def Workflow.activate (db : DB) (wf : Workflow) : Except WorkflowException Workflow :=
  if wf.status != Workflow.DEFINITION then
    .error (.UnableToActivateWorkflow "Only workflows in the definition state may be activated")
  else if !(Workflow.is_valid db wf).1 then
    .error (.UnableToActivateWorkflow "Cannot activate as the workflow does not validate.")
  else
    .ok { wf with status := Workflow.ACTIVE }

/-- Workflow.retire(): unconditionally sets the status to RETIRED. -/
def Workflow.retire (wf : Workflow) : Workflow :=
  { wf with status := Workflow.RETIRED }

/-- WorkflowHistory.TRANSITION -/
def WorkflowHistory.TRANSITION : Nat := 1

/-- WorkflowHistory.COMMENT -/
def WorkflowHistory.COMMENT : Nat := 2

/-- A row of the WorkflowHistory table: one entry of an activity log. -/
structure WorkflowHistory where
  log_type : Nat
  state : Option State
  transition : Option Transition
  note : String
  created_by : Nat
  deadline : Option Time
  deriving Repr, DecidableEq

/-- A row of the WorkflowActivity table, carrying its history log ordered
newest first (the Meta ordering -created_on of WorkflowHistory). -/
structure WorkflowActivity where
  workflow : Nat
  completed_on : Option Time
  history : List WorkflowHistory
  deriving Repr, DecidableEq

/-- WorkflowActivity.current_state(): the newest WorkflowHistory entry of this
activity, or None when the history is empty. -/
def WorkflowActivity.current_state (act : WorkflowActivity) : Option WorkflowHistory :=
  act.history.head?

/-- transition.from_state != current_state.state as the ORM evaluates it:
model instances compare by primary key and a comparison with None is true. -/
def fromStateDiffers (t : Transition) (o : Option State) : Bool :=
  match o with
  | some s => t.from_state.id != s.id
  | none => true

/-- WorkflowActivity.start(user): validates that the activity is not already
started, not completed, and that the workflow has exactly one start state;
then appends the first Transition-type history entry for that start state. -/
def WorkflowActivity.start (db : DB) (act : WorkflowActivity) (user : Nat) (now : Time) :
    Except WorkflowException (WorkflowActivity × WorkflowHistory) :=
  let start_state_result :=
    db.states.filter (fun s => s.workflow == act.workflow && s.is_start_state)
  if act.current_state.any (fun cs => cs.state.isSome) then
    .error (.UnableToStartWorkflow "Already started")
  else if act.completed_on.isSome then
    .error (.UnableToStartWorkflow "Already completed")
  else if start_state_result.length != 1 then
    .error (.UnableToStartWorkflow "Cannot find single start state")
  else
    match start_state_result with
    | [] => .error (.UnableToStartWorkflow "Cannot find single start state")
    | st :: _ =>
      let first_step : WorkflowHistory :=
        { log_type := WorkflowHistory.TRANSITION, state := some st, transition := none,
          note := "Started workflow", created_by := user, deadline := st.deadline now }
      .ok ({ act with history := first_step :: act.history }, first_step)

/-- WorkflowActivity.progress(transition, user, note=''): validates that the
activity is started and that the transition leaves the current state, then
appends a Transition-type entry for the destination state; when the
destination is an end state it also stamps completed_on. -/
def WorkflowActivity.progress (act : WorkflowActivity) (transition : Transition)
    (user : Nat) (note : String) (now : Time) :
    Except WorkflowException (WorkflowActivity × WorkflowHistory) :=
  match act.current_state with
  | none =>
    .error (.UnableToProgressWorkflow "Start the workflow before attempting to transition")
  | some current_state =>
    if fromStateDiffers transition current_state.state then
      .error (.UnableToProgressWorkflow "Transition not valid (wrong parent)")
    else
      let wh : WorkflowHistory :=
        { log_type := WorkflowHistory.TRANSITION,
          state := some transition.to_state,
          transition := some transition,
          note := if note == "" then transition.name else note,
          created_by := user,
          deadline := transition.to_state.deadline now }
      let act1 := { act with history := wh :: act.history }
      let act2 :=
        if transition.to_state.is_end_state then { act1 with completed_on := some now }
        else act1
      .ok (act2, wh)

/-- WorkflowActivity.add_comment(user, note): rejects an empty note, otherwise
appends a Comment-type entry carrying the current state; the deadline stored
is the deadline field of the newest history entry (copied, not recomputed)
when a current state exists, and None otherwise. -/
def WorkflowActivity.add_comment (act : WorkflowActivity) (user : Nat) (note : String) :
    Except WorkflowException (WorkflowActivity × WorkflowHistory) :=
  if note == "" then
    .error (.UnableToAddCommentToWorkflow "Cannot add an empty comment(note)")
  else
    let current_state : Option State := match act.current_state with
      | some cs => cs.state
      | none => none
    let deadline : Option Time :=
      if current_state.isSome then
        match act.current_state with
        | some cs => cs.deadline
        | none => none
      else none
    let wh : WorkflowHistory :=
      { log_type := WorkflowHistory.COMMENT, state := current_state, transition := none,
        note := note, created_by := user, deadline := deadline }
    .ok ({ act with history := wh :: act.history }, wh)

/-- WorkflowActivity.force_stop(user, reason): when a current history entry
exists, appends a Transition-type entry repeating its state with a stop note
and no deadline; always stamps completed_on = now. Never raises. -/
def WorkflowActivity.force_stop (act : WorkflowActivity) (user : Nat) (reason : String)
    (now : Time) : WorkflowActivity :=
  let act1 := match act.current_state with
    | some current_state =>
      let final_step : WorkflowHistory :=
        { log_type := WorkflowHistory.TRANSITION, state := current_state.state,
          transition := none,
          note := "Workflow forced to stop! Reason given: " ++ reason,
          created_by := user, deadline := none }
      { act with history := final_step :: act.history }
    | none => act
  { act1 with completed_on := some now }

/-- One call on a WorkflowActivity, for reasoning about sequences of
operations. -/
inductive Op where
  | start (user : Nat)
  | progress (t : Transition) (user : Nat) (note : String)
  | addComment (user : Nat) (note : String)
  | forceStop (user : Nat) (reason : String)
  deriving Repr, DecidableEq

/-- Applies one operation to an activity, returning the updated activity when
the call succeeds; a forceStop only counts here when the activity has some
history (a started activity), since on an empty log it appends nothing. -/
def applyOp (db : DB) (now : Time) (act : WorkflowActivity) : Op → Option WorkflowActivity
  | .start u => (act.start db u now).toOption.map Prod.fst
  | .progress t u note => (act.progress t u note now).toOption.map Prod.fst
  | .addComment u note => (act.add_comment u note).toOption.map Prod.fst
  | .forceStop u r =>
    if act.history.isEmpty then none else some (act.force_stop u r now)

/-- Runs a sequence of operations, failing as soon as one of them does. -/
def runOps (db : DB) (now : Time) (act : WorkflowActivity) :
    List Op → Option WorkflowActivity
  | [] => some act
  | op :: rest =>
    match applyOp db now act op with
    | some act2 => runOps db now act2 rest
    | none => none

/-- The WorkflowHistory entry built by a successful start for start state st. -/
def startEntry (st : State) (user : Nat) (now : Time) : WorkflowHistory :=
  { log_type := WorkflowHistory.TRANSITION, state := some st, transition := none,
    note := "Started workflow", created_by := user, deadline := st.deadline now }

/-- The WorkflowHistory entry built by a successful progress call. -/
def progressEntry (t : Transition) (user : Nat) (note : String) (now : Time) :
    WorkflowHistory :=
  { log_type := WorkflowHistory.TRANSITION, state := some t.to_state,
    transition := some t,
    note := if note == "" then t.name else note,
    created_by := user,
    deadline := t.to_state.deadline now }

/-- The WorkflowHistory entry built by a successful add_comment call: it
carries the current state and copies the stored deadline of the newest
history entry when a current state exists. -/
def commentEntry (act : WorkflowActivity) (user : Nat) (note : String) : WorkflowHistory :=
  { log_type := WorkflowHistory.COMMENT,
    state := act.current_state.bind (fun cs => cs.state),
    transition := none, note := note, created_by := user,
    deadline :=
      if (act.current_state.bind (fun cs => cs.state)).isSome then
        act.current_state.bind (fun cs => cs.deadline)
      else none }

/-- The structural hypotheses of the validity claim: exactly one start state,
at least one end state, every non-start state has an incoming transition and
every non-end state has an outgoing one. -/
def goodTopology (db : DB) (wf : Workflow) : Bool :=
  (((wf.states db).filter (fun s => s.is_start_state)).length == 1) &&
  (((wf.states db).filter (fun s => s.is_end_state)).length != 0) &&
  (wf.states db).all (fun s => s.is_start_state || (transitions_into db s).length != 0) &&
  (wf.states db).all (fun s => s.is_end_state || (transitions_from db s).length != 0)

/-! Concrete fixtures used to instantiate the theorems. -/

/-- Example start state (no estimation, hence no deadline). -/
def exS1 : State :=
  { id := 1, name := "Draft", workflow := 1, is_start_state := true,
    is_end_state := false, estimation_value := 0, estimation_unit := 86400 }

/-- Example end state with a two hour estimation. -/
def exS2 : State :=
  { id := 2, name := "Done", workflow := 1, is_start_state := false,
    is_end_state := true, estimation_value := 2, estimation_unit := 3600 }

/-- Example intermediate state (neither start nor end). -/
def exS3 : State :=
  { id := 3, name := "Review", workflow := 1, is_start_state := false,
    is_end_state := false, estimation_value := 1, estimation_unit := 60 }

/-- Example transition from the start state to the intermediate state. -/
def exT2 : Transition :=
  { id := 2, name := "Submit", workflow := 1, from_state := exS1, to_state := exS3 }

/-- Example transition from the intermediate state to the end state. -/
def exT3 : Transition :=
  { id := 3, name := "Approve", workflow := 1, from_state := exS3, to_state := exS2 }

/-- Example transition straight from the start state to the end state. -/
def exT1 : Transition :=
  { id := 1, name := "Finish", workflow := 1, from_state := exS1, to_state := exS2 }

/-- Example database holding the states and transitions of workflow 1. -/
def exDB : DB :=
  { states := [exS1, exS2, exS3], transitions := [exT1, exT2, exT3] }

/-- Example workflow in definition status. -/
def exWf : Workflow := { id := 1, name := "Approval", status := 0 }

/-- A fresh activity of workflow 1 with an empty history. -/
def exAct0 : WorkflowActivity := { workflow := 1, completed_on := none, history := [] }

/-- The history entry appended by starting exAct0. -/
def exHist1 : WorkflowHistory :=
  { log_type := 1, state := some exS1, transition := none,
    note := "Started workflow", created_by := 7, deadline := none }

/-- The history entry appended by progressing with exT1 at time 0. -/
def exHist2 : WorkflowHistory :=
  { log_type := 1, state := some exS2, transition := some exT1,
    note := "Finish", created_by := 7, deadline := some 7200 }

/-- The activity after start then progress exT1 at time 0. -/
def exAct2 : WorkflowActivity :=
  { workflow := 1, completed_on := some 0, history := [exHist2, exHist1] }

/-- The activity right after a successful start. -/
def exAct1 : WorkflowActivity :=
  { workflow := 1, completed_on := none, history := [exHist1] }

/-- A started activity whose completed_on is already stamped. -/
def exActDone : WorkflowActivity :=
  { workflow := 1, completed_on := some 3, history := [exHist1] }

/-- A workflow with no states at all (zero start states). -/
def exWf2 : Workflow := { id := 2, name := "Empty", status := 0 }

/-! Step lemmas: every successful operation appends exactly one entry at the
head of the history log. -/

/-- A successful start returns the input activity with the returned entry
consed onto its history, leaving completed_on unchanged. -/
theorem start_ok_cons {db : DB} {act : WorkflowActivity} {u : Nat} {now : Time}
    {p : WorkflowActivity × WorkflowHistory}
    (h : act.start db u now = Except.ok p) :
    p.1.history = p.2 :: act.history ∧ p.1.completed_on = act.completed_on ∧
      p.1.workflow = act.workflow := by
  unfold WorkflowActivity.start at h
  simp only [] at h
  split at h
  · simp at h
  · split at h
    · simp at h
    · split at h
      · simp at h
      · split at h
        · simp at h
        · simp only [Except.ok.injEq] at h
          subst h
          exact ⟨rfl, rfl, rfl⟩

/-- A successful progress returns the input activity with the returned entry
consed onto its history. -/
theorem progress_ok_cons {act : WorkflowActivity} {t : Transition} {u : Nat}
    {note : String} {now : Time} {p : WorkflowActivity × WorkflowHistory}
    (h : act.progress t u note now = Except.ok p) :
    p.1.history = p.2 :: act.history ∧ p.1.workflow = act.workflow := by
  unfold WorkflowActivity.progress at h
  split at h
  · simp at h
  · split at h
    · simp at h
    · simp only [Except.ok.injEq] at h
      subst h
      refine ⟨?_, ?_⟩ <;> (split <;> rfl)

/-- A successful add_comment returns the input activity with the returned
entry consed onto its history, leaving completed_on unchanged. -/
theorem add_comment_ok_cons {act : WorkflowActivity} {u : Nat} {note : String}
    {p : WorkflowActivity × WorkflowHistory}
    (h : act.add_comment u note = Except.ok p) :
    p.1.history = p.2 :: act.history ∧ p.1.completed_on = act.completed_on ∧
      p.1.workflow = act.workflow := by
  unfold WorkflowActivity.add_comment at h
  split at h
  · simp at h
  · simp only [Except.ok.injEq] at h
    subst h
    exact ⟨rfl, rfl, rfl⟩

/-- force_stop on an activity with a non-empty history appends exactly one
entry and stamps completed_on. -/
theorem force_stop_cons {act : WorkflowActivity} {u : Nat} {r : String} {now : Time}
    (h : act.history ≠ []) :
    (act.force_stop u r now).history =
      { log_type := WorkflowHistory.TRANSITION,
        state := (act.history.head h).state, transition := none,
        note := "Workflow forced to stop! Reason given: " ++ r,
        created_by := u, deadline := none } :: act.history ∧
    (act.force_stop u r now).completed_on = some now := by
  match act, h with
  | { workflow := w, completed_on := c, history := e :: rest }, _ =>
    exact ⟨rfl, rfl⟩

/-- start fails with "Already started" as soon as the newest history entry
has a non-null state. -/
theorem start_already_started {db : DB} {act : WorkflowActivity} {u : Nat} {now : Time}
    (h : act.current_state.any (fun cs => cs.state.isSome) = true) :
    act.start db u now =
      Except.error (WorkflowException.UnableToStartWorkflow "Already started") := by
  unfold WorkflowActivity.start
  simp [h]

/-- start fails with "Already completed" when not already started but
completed_on is stamped. -/
theorem start_already_completed {db : DB} {act : WorkflowActivity} {u : Nat} {now : Time}
    (h1 : act.current_state.any (fun cs => cs.state.isSome) = false)
    (h2 : act.completed_on.isSome = true) :
    act.start db u now =
      Except.error (WorkflowException.UnableToStartWorkflow "Already completed") := by
  unfold WorkflowActivity.start
  simp [h1, h2]

/-- start fails with "Cannot find single start state" when the start-state
query does not return exactly one row. -/
theorem start_no_single_start {db : DB} {act : WorkflowActivity} {u : Nat} {now : Time}
    (h1 : act.current_state.any (fun cs => cs.state.isSome) = false)
    (h2 : act.completed_on.isSome = false)
    (h3 : (db.states.filter (fun s => s.workflow == act.workflow && s.is_start_state)).length ≠ 1) :
    act.start db u now =
      Except.error (WorkflowException.UnableToStartWorkflow "Cannot find single start state") := by
  unfold WorkflowActivity.start
  simp [h1, h2, h3]

/-- The exact result of a successful start when the start-state query returns
the single row st. -/
theorem start_ok_shape {db : DB} {act : WorkflowActivity} {u : Nat} {now : Time} {st : State}
    (h1 : act.current_state.any (fun cs => cs.state.isSome) = false)
    (h2 : act.completed_on.isSome = false)
    (h3 : db.states.filter (fun s => s.workflow == act.workflow && s.is_start_state) = [st]) :
    act.start db u now =
      Except.ok
        ({ workflow := act.workflow, completed_on := act.completed_on,
           history := startEntry st u now :: act.history }, startEntry st u now) := by
  unfold WorkflowActivity.start
  simp only [h1, h2, h3, Bool.false_eq_true, if_false, List.length_singleton]
  rfl

/-- The exact result of a successful progress call. -/
theorem progress_ok_shape {act : WorkflowActivity} {t : Transition} {u : Nat}
    {note : String} {now : Time} {cs : WorkflowHistory} {s : State}
    (h1 : act.current_state = some cs) (h2 : cs.state = some s)
    (h3 : t.from_state.id = s.id) :
    act.progress t u note now =
      Except.ok
        ({ workflow := act.workflow,
           completed_on := if t.to_state.is_end_state then some now else act.completed_on,
           history := progressEntry t u note now :: act.history },
         progressEntry t u note now) := by
  have hd : fromStateDiffers t cs.state = false := by
    simp [fromStateDiffers, h2, h3]
  unfold WorkflowActivity.progress
  rw [h1]
  simp only [hd, Bool.false_eq_true, if_false]
  split <;> rfl

/-- force_stop on an activity with an empty history only stamps completed_on. -/
theorem force_stop_empty {act : WorkflowActivity} {u : Nat} {r : String} {now : Time}
    (h : act.history = []) :
    act.force_stop u r now = { act with completed_on := some now } := by
  obtain ⟨w, c, hist⟩ := act
  simp only at h
  subst h
  rfl

/-- force_stop always stamps completed_on = now. -/
theorem force_stop_completed (act : WorkflowActivity) (u : Nat) (r : String) (now : Time) :
    (act.force_stop u r now).completed_on = some now := rfl

/-- Every operation accepted by applyOp grows the history by exactly one
entry. -/
theorem applyOp_length {db : DB} {now : Time} {act act2 : WorkflowActivity} {op : Op}
    (h : applyOp db now act op = some act2) :
    act2.history.length = act.history.length + 1 := by
  cases op with
  | start u =>
    simp only [applyOp] at h
    cases hs : act.start db u now with
    | error e => rw [hs] at h; simp [Except.toOption] at h
    | ok p =>
      rw [hs] at h
      simp only [Except.toOption, Option.map_some] at h
      cases h
      have := start_ok_cons hs
      rw [this.1]
      simp
  | progress t u note =>
    simp only [applyOp] at h
    cases hs : act.progress t u note now with
    | error e => rw [hs] at h; simp [Except.toOption] at h
    | ok p =>
      rw [hs] at h
      simp only [Except.toOption, Option.map_some] at h
      cases h
      have := progress_ok_cons hs
      rw [this.1]
      simp
  | addComment u note =>
    simp only [applyOp] at h
    cases hs : act.add_comment u note with
    | error e => rw [hs] at h; simp [Except.toOption] at h
    | ok p =>
      rw [hs] at h
      simp only [Except.toOption, Option.map_some] at h
      cases h
      have := add_comment_ok_cons hs
      rw [this.1]
      simp
  | forceStop u r =>
    simp only [applyOp] at h
    split at h
    · simp at h
    · rename_i hne
      simp only [Option.some.injEq] at h
      subst h
      have hne2 : act.history ≠ [] := by
        intro hc
        simp [hc] at hne
      rw [(force_stop_cons hne2).1]
      simp

/-- Running a sequence of accepted operations grows the history by the length
of the sequence. -/
theorem runOps_length {db : DB} {now : Time} {act act2 : WorkflowActivity}
    {ops : List Op} (h : runOps db now act ops = some act2) :
    act2.history.length = act.history.length + ops.length := by
  induction ops generalizing act with
  | nil =>
    simp only [runOps, Option.some.injEq] at h
    subst h
    simp
  | cons op rest ih =>
    simp only [runOps] at h
    cases happ : applyOp db now act op with
    | none => rw [happ] at h; simp at h
    | some actm =>
      rw [happ] at h
      have h1 := ih h
      have h2 := applyOp_length happ
      simp [h1, h2]
      omega

/-- C1: current_state() returns the newest history entry of the activity (its
head, or none when the log is empty), and after N accepted operations
(start/progress/add_comment/force_stop on a started activity) applied to a
fresh activity the history log has exactly N entries, the current state being
the N-th appended entry at its head. -/
theorem claim_C1 (db : DB) (now : Time) (act act2 : WorkflowActivity) (ops : List Op)
    (h0 : act.history = []) (h : runOps db now act ops = some act2) :
    act2.history.length = ops.length ∧ act2.current_state = act2.history.head? := by
  have hl := runOps_length h
  rw [h0] at hl
  simp only [List.length_nil, Nat.zero_add] at hl
  exact ⟨hl, rfl⟩

/-- Witness: claim_C1 on a concrete run of start followed by progress. -/
theorem claim_C1_witness :
    exAct0.history = [] ∧
    runOps exDB 0 exAct0 [Op.start 7, Op.progress exT1 7 ""] = some exAct2 ∧
    (exAct2.history.length = ([Op.start 7, Op.progress exT1 7 ""] : List Op).length ∧
      exAct2.current_state = exAct2.history.head?) :=
  ⟨rfl, by decide,
    claim_C1 exDB 0 exAct0 exAct2 [Op.start 7, Op.progress exT1 7 ""] rfl (by decide)⟩

/-- C2: progress raises UnableToProgressWorkflow exactly when the activity has
no current history entry or the transition's from_state differs from the
current entry's state (a pure id comparison, so the transition's own workflow
is never consulted); on success exactly one entry is appended, and on error
no entry is produced. -/
theorem claim_C2 (act : WorkflowActivity) (t : Transition) (u : Nat) (note : String)
    (now : Time) :
    ((∃ msg, act.progress t u note now =
        Except.error (WorkflowException.UnableToProgressWorkflow msg)) ↔
      (act.current_state = none ∨
        ∃ cs, act.current_state = some cs ∧ fromStateDiffers t cs.state = true)) ∧
    (∀ p, act.progress t u note now = Except.ok p → p.1.history = p.2 :: act.history) := by
  refine ⟨⟨?_, ?_⟩, fun p hp => (progress_ok_cons hp).1⟩
  · rintro ⟨msg, hmsg⟩
    unfold WorkflowActivity.progress at hmsg
    cases hcs : act.current_state with
    | none => exact Or.inl rfl
    | some cs =>
      rw [hcs] at hmsg
      by_cases hd : fromStateDiffers t cs.state = true
      · exact Or.inr ⟨cs, rfl, hd⟩
      · simp [hd] at hmsg
  · rintro (hnone | ⟨cs, hcs, hd⟩)
    · exact ⟨"Start the workflow before attempting to transition", by
        unfold WorkflowActivity.progress
        rw [hnone]⟩
    · exact ⟨"Transition not valid (wrong parent)", by
        unfold WorkflowActivity.progress
        rw [hcs]
        simp [hd]⟩

/-- Witness: claim_C2 on a concrete activity and transition. -/
theorem claim_C2_witness :
    ((∃ msg, exAct0.progress exT1 1 "" 0 =
        Except.error (WorkflowException.UnableToProgressWorkflow msg)) ↔
      (exAct0.current_state = none ∨
        ∃ cs, exAct0.current_state = some cs ∧ fromStateDiffers exT1 cs.state = true)) ∧
    (∀ p, exAct0.progress exT1 1 "" 0 = Except.ok p → p.1.history = p.2 :: exAct0.history) :=
  claim_C2 exAct0 exT1 1 "" 0

/-- C3: a progress call whose transition leaves the current state appends one
Transition entry with state = to_state, the transition recorded, the note
defaulting to the transition name when empty and the deadline computed from
the destination state; completed_on is stamped to now exactly when the
destination is an end state and is left unchanged otherwise, and a subsequent
start on the result raises UnableToStartWorkflow. -/
theorem claim_C3 (db : DB) (act : WorkflowActivity) (t : Transition) (u u2 : Nat)
    (note : String) (now now2 : Time) (cs : WorkflowHistory) (s : State)
    (h1 : act.current_state = some cs) (h2 : cs.state = some s)
    (h3 : t.from_state.id = s.id) :
    act.progress t u note now =
      Except.ok
        ({ workflow := act.workflow,
           completed_on := if t.to_state.is_end_state then some now else act.completed_on,
           history := progressEntry t u note now :: act.history },
         progressEntry t u note now) ∧
    (progressEntry t u note now).log_type = WorkflowHistory.TRANSITION ∧
    (progressEntry t u note now).state = some t.to_state ∧
    (progressEntry t u note now).transition = some t ∧
    (progressEntry t u note now).note = (if note == "" then t.name else note) ∧
    (progressEntry t u note now).deadline = t.to_state.deadline now ∧
    WorkflowActivity.start db
      { workflow := act.workflow,
        completed_on := if t.to_state.is_end_state then some now else act.completed_on,
        history := progressEntry t u note now :: act.history } u2 now2 =
      Except.error (WorkflowException.UnableToStartWorkflow "Already started") := by
  refine ⟨progress_ok_shape h1 h2 h3, rfl, rfl, rfl, rfl, rfl, ?_⟩
  exact start_already_started rfl

/-- Witness: claim_C3 progressing a started activity along the Submit edge. -/
theorem claim_C3_witness :
    exAct1.current_state = some exHist1 ∧ exHist1.state = some exS1 ∧
    exT2.from_state.id = exS1.id ∧
    (exAct1.progress exT2 1 "n" 10 =
      Except.ok
        ({ workflow := exAct1.workflow,
           completed_on := if exT2.to_state.is_end_state then some 10 else exAct1.completed_on,
           history := progressEntry exT2 1 "n" 10 :: exAct1.history },
         progressEntry exT2 1 "n" 10) ∧
      (progressEntry exT2 1 "n" 10).log_type = WorkflowHistory.TRANSITION ∧
      (progressEntry exT2 1 "n" 10).state = some exT2.to_state ∧
      (progressEntry exT2 1 "n" 10).transition = some exT2 ∧
      (progressEntry exT2 1 "n" 10).note = (if "n" == "" then exT2.name else "n") ∧
      (progressEntry exT2 1 "n" 10).deadline = exT2.to_state.deadline 10 ∧
      WorkflowActivity.start exDB
        { workflow := exAct1.workflow,
          completed_on := if exT2.to_state.is_end_state then some 10 else exAct1.completed_on,
          history := progressEntry exT2 1 "n" 10 :: exAct1.history } 2 11 =
        Except.error (WorkflowException.UnableToStartWorkflow "Already started")) :=
  ⟨rfl, rfl, rfl, claim_C3 exDB exAct1 exT2 1 2 "n" 10 11 exHist1 exS1 rfl rfl rfl⟩

/-- C4: start raises UnableToStartWorkflow exactly when the newest history
entry exists with a non-null state, or completed_on is set, or the workflow
does not have exactly one start state; on failure nothing is appended, and on
success one Transition entry for the unique start state is appended with note
"Started workflow" and that state's deadline, after which a second start
fails and the log of a previously fresh activity holds exactly one entry. -/
theorem claim_C4 (db : DB) (act : WorkflowActivity) (u u2 : Nat) (now now2 : Time) :
    ((∃ msg, act.start db u now =
        Except.error (WorkflowException.UnableToStartWorkflow msg)) ↔
      (act.current_state.any (fun cs => cs.state.isSome) = true ∨
        act.completed_on.isSome = true ∨
        (db.states.filter (fun s => s.workflow == act.workflow && s.is_start_state)).length ≠ 1)) ∧
    (∀ p, act.start db u now = Except.ok p →
      p.1.history = p.2 :: act.history ∧
      p.2.log_type = WorkflowHistory.TRANSITION ∧
      p.2.note = "Started workflow" ∧
      (∃ st, db.states.filter (fun s => s.workflow == act.workflow && s.is_start_state) = [st] ∧
        p.2.state = some st ∧ p.2.deadline = st.deadline now) ∧
      p.1.start db u2 now2 =
        Except.error (WorkflowException.UnableToStartWorkflow "Already started") ∧
      (act.history = [] → p.1.history.length = 1)) := by
  constructor
  · constructor
    · rintro ⟨msg, hmsg⟩
      by_contra hc
      push_neg at hc
      obtain ⟨hA, hB, hC⟩ := hc
      simp only [ne_eq, Bool.not_eq_true] at hA hB
      obtain ⟨st, hst⟩ := List.length_eq_one.mp hC
      rw [start_ok_shape hA hB hst] at hmsg
      simp at hmsg
    · rintro (hA | hB | hC)
      · exact ⟨"Already started", start_already_started hA⟩
      · by_cases hA : act.current_state.any (fun cs => cs.state.isSome) = true
        · exact ⟨"Already started", start_already_started hA⟩
        · rw [Bool.not_eq_true] at hA
          exact ⟨"Already completed", start_already_completed hA hB⟩
      · by_cases hA : act.current_state.any (fun cs => cs.state.isSome) = true
        · exact ⟨"Already started", start_already_started hA⟩
        · rw [Bool.not_eq_true] at hA
          by_cases hB : act.completed_on.isSome = true
          · exact ⟨"Already completed", start_already_completed hA hB⟩
          · rw [Bool.not_eq_true] at hB
            exact ⟨"Cannot find single start state", start_no_single_start hA hB hC⟩
  · intro p hp
    have hA : act.current_state.any (fun cs => cs.state.isSome) = false := by
      by_contra hA2
      rw [Bool.not_eq_false] at hA2
      rw [start_already_started hA2] at hp
      simp at hp
    have hB : act.completed_on.isSome = false := by
      by_contra hB2
      rw [Bool.not_eq_false] at hB2
      rw [start_already_completed hA hB2] at hp
      simp at hp
    have hC : (db.states.filter (fun s => s.workflow == act.workflow && s.is_start_state)).length = 1 := by
      by_contra hC2
      rw [start_no_single_start hA hB hC2] at hp
      simp at hp
    obtain ⟨st, hst⟩ := List.length_eq_one.mp hC
    rw [start_ok_shape hA hB hst] at hp
    simp only [Except.ok.injEq] at hp
    subst hp
    refine ⟨rfl, rfl, rfl, ⟨st, hst, rfl, rfl⟩, start_already_started rfl, ?_⟩
    intro h0
    simp [h0]

/-- Witness: claim_C4 on a fresh activity of workflow 1. -/
theorem claim_C4_witness :
    ((∃ msg, exAct0.start exDB 7 0 =
        Except.error (WorkflowException.UnableToStartWorkflow msg)) ↔
      (exAct0.current_state.any (fun cs => cs.state.isSome) = true ∨
        exAct0.completed_on.isSome = true ∨
        (exDB.states.filter (fun s => s.workflow == exAct0.workflow && s.is_start_state)).length ≠ 1)) ∧
    (∀ p, exAct0.start exDB 7 0 = Except.ok p →
      p.1.history = p.2 :: exAct0.history ∧
      p.2.log_type = WorkflowHistory.TRANSITION ∧
      p.2.note = "Started workflow" ∧
      (∃ st, exDB.states.filter (fun s => s.workflow == exAct0.workflow && s.is_start_state) = [st] ∧
        p.2.state = some st ∧ p.2.deadline = st.deadline 0) ∧
      p.1.start exDB 8 1 =
        Except.error (WorkflowException.UnableToStartWorkflow "Already started") ∧
      (exAct0.history = [] → p.1.history.length = 1)) :=
  claim_C4 exDB exAct0 7 8 0 1

/-- C5: a workflow with exactly one start state, at least one end state, an
incoming transition for every non-start state and an outgoing transition for
every non-end state validates with an empty error report; a workflow whose
start-state count differs from one is invalid with a non-empty
workflow-level error list. -/
theorem claim_C5 (db : DB) (wf : Workflow) :
    (goodTopology db wf = true →
      wf.is_valid db = (true, { workflow := [], states := [], transitions := [] })) ∧
    (((wf.states db).filter (fun s => s.is_start_state)).length ≠ 1 →
      (wf.is_valid db).1 = false ∧ (wf.is_valid db).2.workflow ≠ []) := by
  constructor
  · intro hg
    simp only [goodTopology, Bool.and_eq_true, beq_iff_eq, bne_iff_ne, ne_eq,
      List.all_eq_true] at hg
    obtain ⟨⟨⟨h1, h2⟩, h3⟩, h4⟩ := hg
    have hse : ∀ s ∈ wf.states db, stateErrors db s = [] := by
      intro s hs
      have h3s := h3 s hs
      have h4s := h4 s hs
      unfold stateErrors
      cases hb1 : s.is_start_state <;> cases hb2 : s.is_end_state <;>
        rw [hb1] at h3s <;> rw [hb2] at h4s <;> simp_all
    have hfold : ∀ (l : List State) (acc : List (Nat × List String)),
        (∀ s ∈ l, stateErrors db s = []) →
        (l.foldl (fun acc s =>
          let msgs := stateErrors db s
          if msgs.isEmpty then acc else acc ++ [(s.id, msgs)]) acc) = acc := by
      intro l
      induction l with
      | nil => intro acc _; rfl
      | cons a l ih =>
        intro acc hall
        simp only [List.foldl_cons]
        have ha := hall a (by simp)
        simp only [ha, List.isEmpty_nil, if_true]
        exact ih acc (fun s hs => hall s (by simp [hs]))
    unfold Workflow.is_valid
    simp only [h1]
    rw [hfold (wf.states db) [] hse]
    simp [Nat.lt_one_iff, h2]
  · intro hne
    unfold Workflow.is_valid
    have hb : (((wf.states db).filter (fun s => s.is_start_state)).length != 1) = true := by
      simpa using hne
    simp only [hb, if_true]
    constructor
    · simp
    · simp

/-- Witness: claim_C5 on the well-formed Approval workflow and on an empty
workflow with zero start states. -/
theorem claim_C5_witness :
    goodTopology exDB exWf = true ∧
    exWf.is_valid exDB = (true, { workflow := [], states := [], transitions := [] }) ∧
    ((exWf2.states exDB).filter (fun s => s.is_start_state)).length ≠ 1 ∧
    (exWf2.is_valid exDB).1 = false ∧ (exWf2.is_valid exDB).2.workflow ≠ [] :=
  ⟨by decide, (claim_C5 exDB exWf).1 (by decide), by decide,
    ((claim_C5 exDB exWf2).2 (by decide)).1, ((claim_C5 exDB exWf2).2 (by decide)).2⟩

/-- C6: activate raises UnableToActivateWorkflow exactly when the status is
not Definition or the graph does not validate (leaving the workflow
untouched), otherwise it returns the workflow with status Active; retire
unconditionally returns the workflow with status Retired. -/
theorem claim_C6 (db : DB) (wf : Workflow) :
    ((∃ msg, wf.activate db =
        Except.error (WorkflowException.UnableToActivateWorkflow msg)) ↔
      (wf.status ≠ Workflow.DEFINITION ∨ (wf.is_valid db).1 = false)) ∧
    (∀ wf2, wf.activate db = Except.ok wf2 → wf2 = { wf with status := Workflow.ACTIVE }) ∧
    wf.retire = { wf with status := Workflow.RETIRED } := by
  refine ⟨⟨?_, ?_⟩, ?_, rfl⟩
  · rintro ⟨msg, hmsg⟩
    unfold Workflow.activate at hmsg
    by_cases hs : wf.status = Workflow.DEFINITION
    · right
      by_cases hv : (wf.is_valid db).1 = false
      · exact hv
      · exfalso
        rw [Bool.not_eq_false] at hv
        simp [hs, hv] at hmsg
    · exact Or.inl hs
  · rintro (hs | hv)
    · exact ⟨"Only workflows in the definition state may be activated", by
        unfold Workflow.activate
        simp [hs]⟩
    · by_cases hs : wf.status = Workflow.DEFINITION
      · exact ⟨"Cannot activate as the workflow does not validate.", by
          unfold Workflow.activate
          simp [hs, hv]⟩
      · exact ⟨"Only workflows in the definition state may be activated", by
          unfold Workflow.activate
          simp [hs]⟩
  · intro wf2 h
    unfold Workflow.activate at h
    split at h
    · simp at h
    · split at h
      · simp at h
      · simp only [Except.ok.injEq] at h
        exact h.symm

/-- Witness: claim_C6 on the Approval workflow in definition status. -/
theorem claim_C6_witness :
    ((∃ msg, exWf.activate exDB =
        Except.error (WorkflowException.UnableToActivateWorkflow msg)) ↔
      (exWf.status ≠ Workflow.DEFINITION ∨ (exWf.is_valid exDB).1 = false)) ∧
    (∀ wf2, exWf.activate exDB = Except.ok wf2 → wf2 = { exWf with status := Workflow.ACTIVE }) ∧
    exWf.retire = { exWf with status := Workflow.RETIRED } :=
  claim_C6 exDB exWf

/-- C7, amended: force_stop never fails; on an activity with history it
appends one Transition entry repeating the current entry's state with note
"Workflow forced to stop! Reason given: <reason>" and a null deadline, on an
empty history it only stamps completed_on; completed_on is always set to now
and a second call leaves it non-null. -/
theorem claim_C7 (act : WorkflowActivity) (u u2 : Nat) (reason r2 : String)
    (now now2 : Time) :
    (act.force_stop u reason now).completed_on = some now ∧
    (∀ h : act.history ≠ [],
      (act.force_stop u reason now).history =
        { log_type := WorkflowHistory.TRANSITION, state := (act.history.head h).state,
          transition := none,
          note := "Workflow forced to stop! Reason given: " ++ reason,
          created_by := u, deadline := none } :: act.history) ∧
    (act.history = [] →
      act.force_stop u reason now = { act with completed_on := some now }) ∧
    ((act.force_stop u reason now).force_stop u2 r2 now2).completed_on = some now2 :=
  ⟨force_stop_completed act u reason now,
    fun h => (force_stop_cons h).1,
    fun h => force_stop_empty h,
    force_stop_completed _ u2 r2 now2⟩

/-- C7 counterexample: the note the code writes is "Workflow forced to stop!
Reason given: <reason>", not "Workflow forced to stop! Reason: <reason>" as
the claim states. -/
theorem claim_C7_counterexample :
    (exAct1.force_stop 1 "stuck" 5).history.head?.map (fun e => e.note) =
      some "Workflow forced to stop! Reason given: stuck" ∧
    ¬ ((exAct1.force_stop 1 "stuck" 5).history.head?.map (fun e => e.note) =
      some "Workflow forced to stop! Reason: stuck") := by
  constructor
  · rfl
  · decide

/-- Witness: claim_C7 on a started activity. -/
theorem claim_C7_witness :
    (exAct1.force_stop 1 "stuck" 5).completed_on = some 5 ∧
    (∀ h : exAct1.history ≠ [],
      (exAct1.force_stop 1 "stuck" 5).history =
        { log_type := WorkflowHistory.TRANSITION, state := (exAct1.history.head h).state,
          transition := none,
          note := "Workflow forced to stop! Reason given: " ++ "stuck",
          created_by := 1, deadline := none } :: exAct1.history) ∧
    (exAct1.history = [] →
      exAct1.force_stop 1 "stuck" 5 = { exAct1 with completed_on := some 5 }) ∧
    ((exAct1.force_stop 1 "stuck" 5).force_stop 2 "again" 6).completed_on = some 6 :=
  claim_C7 exAct1 1 2 "stuck" "again" 5 6

/-- The exact result of a successful add_comment call. -/
theorem add_comment_ok_shape {act : WorkflowActivity} {u : Nat} {note : String}
    (h : (note == "") = false) :
    act.add_comment u note =
      Except.ok
        ({ workflow := act.workflow, completed_on := act.completed_on,
           history := commentEntry act u note :: act.history },
         commentEntry act u note) := by
  unfold WorkflowActivity.add_comment commentEntry
  simp only [h, Bool.false_eq_true, if_false]
  cases act.current_state <;> rfl

/-- C8: add_comment raises UnableToAddCommentToWorkflow exactly on an empty
note, appending nothing; a non-empty note appends one Comment entry whose
state is the current entry's state, leaving completed_on and the state
position reported through current_state() unchanged. -/
theorem claim_C8 (act : WorkflowActivity) (u : Nat) (note : String) :
    (note = "" →
      act.add_comment u note =
        Except.error
          (WorkflowException.UnableToAddCommentToWorkflow "Cannot add an empty comment(note)")) ∧
    (note ≠ "" →
      act.add_comment u note =
        Except.ok
          ({ workflow := act.workflow, completed_on := act.completed_on,
             history := commentEntry act u note :: act.history },
           commentEntry act u note) ∧
      (commentEntry act u note).log_type = WorkflowHistory.COMMENT ∧
      (commentEntry act u note).state = act.current_state.bind (fun cs => cs.state) ∧
      (WorkflowActivity.current_state
          { workflow := act.workflow, completed_on := act.completed_on,
            history := commentEntry act u note :: act.history }).bind (fun cs => cs.state) =
        act.current_state.bind (fun cs => cs.state)) := by
  constructor
  · intro h
    unfold WorkflowActivity.add_comment
    simp [h]
  · intro h
    have hne : (note == "") = false := by simpa using h
    exact ⟨add_comment_ok_shape hne, rfl, rfl, rfl⟩

/-- Witness: claim_C8 on a started activity and the note "x". -/
theorem claim_C8_witness :
    ("x" = "" →
      exAct1.add_comment 1 "x" =
        Except.error
          (WorkflowException.UnableToAddCommentToWorkflow "Cannot add an empty comment(note)")) ∧
    ("x" ≠ "" →
      exAct1.add_comment 1 "x" =
        Except.ok
          ({ workflow := exAct1.workflow, completed_on := exAct1.completed_on,
             history := commentEntry exAct1 1 "x" :: exAct1.history },
           commentEntry exAct1 1 "x") ∧
      (commentEntry exAct1 1 "x").log_type = WorkflowHistory.COMMENT ∧
      (commentEntry exAct1 1 "x").state = exAct1.current_state.bind (fun cs => cs.state) ∧
      (WorkflowActivity.current_state
          { workflow := exAct1.workflow, completed_on := exAct1.completed_on,
            history := commentEntry exAct1 1 "x" :: exAct1.history }).bind (fun cs => cs.state) =
        exAct1.current_state.bind (fun cs => cs.state)) :=
  claim_C8 exAct1 1 "x"

/-- C9, amended: the Comment entry appended by add_comment on a started
activity stores in its deadline field a copy of the deadline value already
stored on the newest history entry (which may be null), not a callable and
not a freshly recomputed deadline of the current state. -/
theorem claim_C9 (act : WorkflowActivity) (u : Nat) (note : String) (cs : WorkflowHistory)
    (h1 : note ≠ "") (h2 : act.current_state = some cs) (h3 : cs.state.isSome = true) :
    act.add_comment u note =
      Except.ok
        ({ workflow := act.workflow, completed_on := act.completed_on,
           history := commentEntry act u note :: act.history },
         commentEntry act u note) ∧
    (commentEntry act u note).deadline = cs.deadline := by
  refine ⟨add_comment_ok_shape (by simpa using h1), ?_⟩
  unfold commentEntry
  simp [h2, h3]

/-- C9 counterexample: on an activity started in a state with no estimation,
the Comment entry's deadline is null, contradicting the claim that it is a
non-null method reference distinct from the stored value. -/
theorem claim_C9_counterexample :
    (exAct1.add_comment 1 "hi").toOption.map (fun p => p.2.deadline) = some none := by
  decide

/-- Witness: claim_C9 on a started activity whose newest entry has deadline
none. -/
theorem claim_C9_witness :
    ("hi" : String) ≠ "" ∧ exAct1.current_state = some exHist1 ∧
    exHist1.state.isSome = true ∧
    (exAct1.add_comment 1 "hi" =
      Except.ok
        ({ workflow := exAct1.workflow, completed_on := exAct1.completed_on,
           history := commentEntry exAct1 1 "hi" :: exAct1.history },
         commentEntry exAct1 1 "hi") ∧
      (commentEntry exAct1 1 "hi").deadline = exHist1.deadline) :=
  ⟨by decide, rfl, rfl, claim_C9 exAct1 1 "hi" exHist1 (by decide) rfl rfl⟩

/-- C10: progress never inspects completed_on: on an activity whose
completed_on is already stamped, a transition leaving the current state still
succeeds and appends a new entry, while start on the same activity is
blocked. -/
theorem claim_C10 (db : DB) (act : WorkflowActivity) (t : Transition) (u u2 : Nat)
    (note : String) (now now2 : Time) (cs : WorkflowHistory) (s : State) (ct : Time)
    (h0 : act.completed_on = some ct) (h1 : act.current_state = some cs)
    (h2 : cs.state = some s) (h3 : t.from_state.id = s.id) :
    act.progress t u note now =
      Except.ok
        ({ workflow := act.workflow,
           completed_on := if t.to_state.is_end_state then some now else some ct,
           history := progressEntry t u note now :: act.history },
         progressEntry t u note now) ∧
    act.start db u2 now2 =
      Except.error (WorkflowException.UnableToStartWorkflow "Already started") := by
  constructor
  · rw [← h0]
    exact progress_ok_shape h1 h2 h3
  · apply start_already_started
    simp [h1, Option.any, h2]

/-- Witness: claim_C10 progressing a completed activity along the Submit
edge. -/
theorem claim_C10_witness :
    exActDone.completed_on = some 3 ∧ exActDone.current_state = some exHist1 ∧
    exHist1.state = some exS1 ∧ exT2.from_state.id = exS1.id ∧
    (exActDone.progress exT2 1 "go" 9 =
      Except.ok
        ({ workflow := exActDone.workflow,
           completed_on := if exT2.to_state.is_end_state then some 9 else some 3,
           history := progressEntry exT2 1 "go" 9 :: exActDone.history },
         progressEntry exT2 1 "go" 9) ∧
      exActDone.start exDB 2 10 =
        Except.error (WorkflowException.UnableToStartWorkflow "Already started")) :=
  ⟨rfl, rfl, rfl, rfl, claim_C10 exDB exActDone exT2 1 2 "go" 9 10 exHist1 exS1 3 rfl rfl rfl rfl⟩

end Dwf
